import Mathlib

/-!
Formal model of the stream-control logic of `src/ip_camera_player.py` (an
RTSP IP-camera player). The `StreamThread` class is modelled by
`ThreadState` together with the functions `start_streaming`,
`stop_streaming`, `pause_streaming`, `run_connect` (the part of `run`
before the capture loop) and `run_iter` (one iteration of the capture
loop). The `Windows` class is modelled by `WindowsState` and the
corresponding `windows_*`, `display_frame`, `wheelEvent`,
`mouseMoveEvent` and `update_camera_settings` functions.

Modelling conventions:
- Qt signal emissions are collected in an explicit event list (`Ev`).
- The Qt thread being alive (`QThread.isRunning`) is the model field
  `threadRunning`; `VideoCapture.release()` calls are counted in
  `releaseCount`.
- Python floats (the zoom factor) are modelled as exact rationals, and
  Python `int()` truncation as `truncQ`.
- Frames are reduced to their pixel dimensions.
- GUI-only effects (widget enabling, pixmap rendering, the loading
  animation, focus changes) are outside the model.
-/

/-- A captured video frame, reduced to its (width, height) in pixels. -/
abbrev Frame := Nat × Nat

/-- Model of a `cv2.VideoCapture` handle: whether `isOpened()` holds and
the native resolution reported by `CAP_PROP_FRAME_WIDTH` and
`CAP_PROP_FRAME_HEIGHT`. -/
structure Cap where
  opened : Bool
  native : Frame
  deriving DecidableEq

/-- Signals emitted by `StreamThread` (`frame_received`,
`first_frame_received`, `error_signal`, `status_signal`); the payload of
`frame_received` is reduced to the frame dimensions. -/
inductive Ev where
  | frame (f : Frame)
  | firstFrame
  | error (msg : String)
  | status (msg : String)
  deriving DecidableEq

/-- State of a `StreamThread` instance (fields `__url`, `__cap`,
`__stream_is_running`, `__stream_is_paused`, `__video_resolution`,
`__first_frame_was_received`, `__resize_frame` of the source), plus two
bookkeeping fields: `threadRunning` models `QThread.isRunning()` (the
`run` method currently executing), and `releaseCount` counts the
`VideoCapture.release()` calls made so far. -/
structure ThreadState where
  url : String
  cap : Option Cap
  stream_is_running : Bool
  stream_is_paused : Bool
  video_resolution : Frame
  first_frame_was_received : Bool
  resize_frame : Bool
  threadRunning : Bool
  releaseCount : Nat
  deriving DecidableEq

/-- The state built by `StreamThread.__init__(url, video_res)`
(source lines 122-140); the thread is not yet started. -/
def t_init (url : String) (res : Frame) : ThreadState :=
  { url := url, cap := none, stream_is_running := false,
    stream_is_paused := false, video_resolution := res,
    first_frame_was_received := false, resize_frame := false,
    threadRunning := false, releaseCount := 0 }

/-- `StreamThread.start_streaming(url, res)` (source lines 217-225).
Note that the assignment `__first_frame_was_received = False` sits
outside the `if not self.__stream_is_running` block and therefore runs
unconditionally. `self.start()` beginning `run` is modelled by setting
`threadRunning`. -/
def start_streaming (s : ThreadState) (url : String) (res : Frame) :
    ThreadState × List Ev :=
  let p :=
    if s.stream_is_running = false then
      ({ s with url := url, video_resolution := res,
                stream_is_running := true, stream_is_paused := false,
                threadRunning := true },
        [Ev.status ("Starting streaming")])
    else (s, [])
  ({ p.1 with first_frame_was_received := false }, p.2)

/-- `StreamThread.stop_streaming` (source lines 227-236): emit the
status, clear the running flag, `quit()`/`wait()` for the thread
(modelled by clearing `threadRunning`), and release the capture if one
is held. -/
def stop_streaming (s : ThreadState) : ThreadState × List Ev :=
  let s1 := { s with stream_is_running := false, threadRunning := false }
  match s1.cap with
  | some _ =>
      ({ s1 with cap := none, releaseCount := s1.releaseCount + 1 },
        [Ev.status ("Stopping streaming")])
  | none => (s1, [Ev.status ("Stopping streaming")])

/-- `StreamThread.pause_streaming(pause)` (source lines 238-244); note
there is no guard on the session being active. -/
def pause_streaming (s : ThreadState) (pause : Bool) : ThreadState × List Ev :=
  if pause then
    ({ s with stream_is_paused := true }, [Ev.status ("Streaming paused")])
  else
    ({ s with stream_is_paused := false }, [Ev.status ("Streaming playing")])

/-- Outcome of the detached `initialize_camera` attempt joined with a
timeout (source lines 150-161): either the join timed out, or it
completed leaving `__cap` set to the produced handle. -/
inductive InitOutcome where
  | timedOut
  | completed (cap : Option Cap)
  deriving DecidableEq

/-- The part of `StreamThread.run` before the capture loop (source lines
150-185): handle the timeout, handle a handle that failed to open, and
otherwise record the native resolution and decide whether frames must be
resized. The returned `Bool` tells whether execution proceeds into the
capture loop. Note the resize decision only ever sets `__resize_frame`
to `True`; there is no branch clearing it. -/
def run_connect (s : ThreadState) (o : InitOutcome) :
    ThreadState × List Ev × Bool :=
  match o with
  | InitOutcome.timedOut =>
      let p := stop_streaming s
      (p.1,
        (Ev.error ("Failed to open camera stream: Operation timed out.") :: p.2,
          false))
  | InitOutcome.completed c =>
      let s0 := { s with cap := c }
      match c with
      | none =>
          let p := stop_streaming s0
          (p.1, (Ev.error ("Failed to open camera stream") :: p.2, false))
      | some cc =>
          if cc.opened = false then
            let p := stop_streaming s0
            (p.1, (Ev.error ("Failed to open camera stream") :: p.2, false))
          else
            if s0.video_resolution ≠ cc.native then
              ({ s0 with resize_frame := true }, ([], true))
            else (s0, ([], true))

/-- One iteration of the capture loop in `StreamThread.run` (source
lines 187-210). `read` is what `self.__cap.read()` would yield at this
iteration: `none` models `ret == False`, `some f` a frame of dimensions
`f`. When `__stream_is_running` has been cleared the loop exits and
`run` returns (the thread finishes); on a failed read the loop emits the
error and breaks (line 211, `self.stop_streaming()`, is commented out in
the source). -/
def run_iter (s : ThreadState) (read : Option Frame) : ThreadState × List Ev :=
  if s.threadRunning = false then (s, [])
  else if s.stream_is_running = false then
    ({ s with threadRunning := false }, [])
  else
    match s.cap with
    | none => (s, [])
    | some c =>
      if c.opened = false then (s, [])
      else if s.stream_is_paused = true then (s, [])
      else
        match read with
        | none =>
            ({ s with threadRunning := false },
              [Ev.error ("Error reading frame. Stopping the video stream.")])
        | some f =>
            let f2 := if s.resize_frame = true then s.video_resolution else f
            if s.first_frame_was_received = false then
              ({ s with first_frame_was_received := true },
                [Ev.frame f2, Ev.status ("Streaming started"), Ev.firstFrame])
            else (s, [Ev.frame f2])

/-- Run the capture loop over a finite schedule of read results,
collecting emitted events. -/
def run_loop : ThreadState → List (Option Frame) → ThreadState × List Ev
  | s, [] => (s, [])
  | s, r :: rs =>
      let p := run_iter s r
      let q := run_loop p.1 rs
      (q.1, p.2 ++ q.2)

/-- An interleaving step applied to a `StreamThread`: either a call into
its API from another thread of control, the completion of the connect
phase of `run`, or one capture-loop iteration. -/
inductive Act where
  | callStart (url : String) (res : Frame)
  | callStop
  | callPause (b : Bool)
  | connectDone (o : InitOutcome)
  | iter (read : Option Frame)
  deriving DecidableEq

/-- Apply one interleaving step. The connect phase only executes while
the thread is alive. -/
def thread_step (s : ThreadState) (a : Act) : ThreadState × List Ev :=
  match a with
  | Act.callStart url res => start_streaming s url res
  | Act.callStop => stop_streaming s
  | Act.callPause b => pause_streaming s b
  | Act.connectDone o =>
      if s.threadRunning = true then
        let p := run_connect s o
        (p.1, p.2.1)
      else (s, [])
  | Act.iter r => run_iter s r

/-- Execute a finite schedule of interleaving steps. -/
def thread_exec : ThreadState → List Act → ThreadState × List Ev
  | s, [] => (s, [])
  | s, a :: as =>
      let p := thread_step s a
      let q := thread_exec p.1 as
      (q.1, p.2 ++ q.2)

/-- Number of `first_frame_received` emissions in an event list. -/
def countFirstFrame : List Ev → Nat
  | [] => 0
  | Ev.firstFrame :: es => countFirstFrame es + 1
  | _ :: es => countFirstFrame es

/-- A concrete mid-session state: thread alive, streaming, capture open
at native 1920x1080, first frame already notified. -/
def t0 : ThreadState :=
  { url := ("rtsp://cam"), cap := some { opened := true, native := (1920, 1080) },
    stream_is_running := true, stream_is_paused := false,
    video_resolution := (1920, 1080), first_frame_was_received := true,
    resize_frame := false, threadRunning := true, releaseCount := 0 }

lemma countFirstFrame_append (l1 l2 : List Ev) :
    countFirstFrame (l1 ++ l2) = countFirstFrame l1 + countFirstFrame l2 := by
  induction l1 with
  | nil => simp [countFirstFrame]
  | cons e es ih =>
      cases e with
      | firstFrame =>
          show countFirstFrame (es ++ l2) + 1 =
            countFirstFrame es + 1 + countFirstFrame l2
          omega
      | frame f =>
          show countFirstFrame (es ++ l2) =
            countFirstFrame es + countFirstFrame l2
          exact ih
      | error m =>
          show countFirstFrame (es ++ l2) =
            countFirstFrame es + countFirstFrame l2
          exact ih
      | status m =>
          show countFirstFrame (es ++ l2) =
            countFirstFrame es + countFirstFrame l2
          exact ih

lemma run_iter_countFF (s : ThreadState) (r : Option Frame) :
    countFirstFrame (run_iter s r).2 +
      (if (run_iter s r).1.first_frame_was_received = true then 0 else 1) ≤
      (if s.first_frame_was_received = true then 0 else 1) := by
  rcases s with ⟨url, cap, sir, sip, vres, fffr, rf, tr, rc⟩
  rcases cap with _ | ⟨op, nat⟩
  · cases tr <;> cases sir <;> cases fffr <;> simp [run_iter, countFirstFrame]
  · cases tr <;> cases sir <;> cases op <;> cases sip <;>
      rcases r with _ | f <;> cases fffr <;> simp [run_iter, countFirstFrame]

lemma run_loop_countFF (rs : List (Option Frame)) (s : ThreadState) :
    countFirstFrame (run_loop s rs).2 +
      (if (run_loop s rs).1.first_frame_was_received = true then 0 else 1) ≤
      (if s.first_frame_was_received = true then 0 else 1) := by
  induction rs generalizing s with
  | nil => simp [run_loop, countFirstFrame]
  | cons r rs ih =>
      have h1 := run_iter_countFF s r
      have h2 := ih (run_iter s r).1
      simp only [run_loop, countFirstFrame_append]
      omega

/-- Python `int()` applied to a rational value: truncation toward zero. -/
def truncQ (q : Rat) : Int := if 0 ≤ q then ⌊q⌋ else ⌈q⌉

/-- State of the `Windows` main-window object: its `StreamThread`
(`rtspCameraStream`), the camera settings fields, the view state used
for zoom and pan, and the three status-bar label texts. Widget
enabled/disabled flags other than the start button are omitted. -/
structure WindowsState where
  thread : ThreadState
  is_running : Bool
  zoom_factor : Rat
  panning : Bool
  last_mouse_x : Int
  last_mouse_y : Int
  x_offset : Int
  y_offset : Int
  scaled_width : Int
  scaled_height : Int
  current_frame : Option Frame
  protocol : String
  user : String
  password : String
  ip : String
  port : Int
  stream_path : String
  video_resolution : Frame
  url : String
  start_enabled : Bool
  status_message : String
  status_url : String
  status_resolution : String
  pause_button_text : String

/-- `Windows.replace_letters_with_asterisks` (source lines 627-630). -/
def replace_letters_with_asterisks (s : String) : String :=
  String.mk (s.data.map (fun _ => ('*' : Char)))

/-- `Windows.update_status_bar(message, url, res)` (source lines
611-625): each label is rewritten only when the corresponding argument
is non-empty. -/
def update_status_bar (w : WindowsState) (message url res : String) :
    WindowsState :=
  let w1 := if message ≠ ("") then
    { w with status_message := ("Status: ") ++ message ++ (",") } else w
  let w2 := if url ≠ ("") then
    { w1 with status_url := ("Url: ") ++ url ++ (",") } else w1
  if res ≠ ("") then
    { w2 with status_resolution := ("Resolution: ") ++ res } else w2

/-- The masked connection URL the `Windows` constructor places in the
status bar (source lines 525-526): the url f-string with the password
replaced by `replace_letters_with_asterisks(password)`. -/
def displayed_url (protocol user password ip : String) (port : Int)
    (stream_path : String) : String :=
  (" ") ++ protocol ++ ("://") ++ user ++ (":") ++
    replace_letters_with_asterisks password ++ ("@") ++ ip ++ (":") ++
    toString port ++ ("/") ++ stream_path ++ (" ")

/-- `Windows.start_streaming` (source lines 632-647): guarded by the
thread not running and a non-empty ip; resets the view state and calls
`StreamThread.start_streaming`. -/
def windows_start_streaming (w : WindowsState) : WindowsState × List Ev :=
  if w.thread.threadRunning = false ∧ w.ip ≠ ("") then
    let w1 := { w with zoom_factor := 1, panning := false,
                       last_mouse_x := 0, last_mouse_y := 0,
                       x_offset := 0, y_offset := 0,
                       scaled_width := 0, scaled_height := 0 }
    let p := start_streaming w1.thread w.url w.video_resolution
    ({ w1 with thread := p.1, is_running := true }, p.2)
  else (w, [])

/-- `Windows.stop_streaming` (source lines 682-687): only acts when the
thread is running. -/
def windows_stop_streaming (w : WindowsState) : WindowsState × List Ev :=
  if w.thread.threadRunning = true then
    let p := stop_streaming w.thread
    ({ w with thread := p.1, is_running := false }, p.2)
  else (w, [])

/-- `Windows.pause_streaming` (source lines 689-698): only acts when the
thread is running; toggles between pausing and unpausing based on
`is_running`. -/
def windows_pause_streaming (w : WindowsState) : WindowsState × List Ev :=
  if w.thread.threadRunning = true then
    if w.is_running = true then
      let p := pause_streaming w.thread true
      ({ w with thread := p.1, is_running := false,
                pause_button_text := ("Unpause") }, p.2)
    else
      let p := pause_streaming w.thread false
      ({ w with thread := p.1, is_running := true,
                pause_button_text := ("Pause") }, p.2)
  else (w, [])

/-- `Windows.display_frame(frame)` (source lines 649-680): store the
frame, compute the scaled dimensions from the zoom factor, and clamp the
pan offsets to the scaled frame's bounds. `vw`, `vh` are the video
label's width and height. -/
def display_frame (w : WindowsState) (f : Frame) (vw vh : Int) :
    WindowsState :=
  let sw := truncQ (w.zoom_factor * (f.1 : Rat))
  let sh := truncQ (w.zoom_factor * (f.2 : Rat))
  { w with current_frame := some f, scaled_width := sw, scaled_height := sh,
           x_offset := max 0 (min w.x_offset (sw - vw)),
           y_offset := max 0 (min w.y_offset (sh - vh)) }

/-- The sub-rectangle handed to `QPixmap.copy` in `display_frame`
(source lines 676-677), as corner coordinates
(left, top, right, bottom) over the scaled frame. -/
def visible_rect (w : WindowsState) (vw vh : Int) : Int × Int × Int × Int :=
  (w.x_offset, w.y_offset, w.x_offset + vw, w.y_offset + vh)

/-- The portion of the scaled frame that `QPixmap.copy` actually reads:
the requested rectangle intersected with the scaled frame's bounds
(Qt pads, rather than reads, anything outside the source pixmap). -/
def clip_rect (r : Int × Int × Int × Int) (sw sh : Int) :
    Int × Int × Int × Int :=
  (max 0 r.1, max 0 r.2.1, min sw r.2.2.1, min sh r.2.2.2)

/-- `Windows.wheelEvent` (source lines 988-999): multiply or divide the
zoom factor by 1.1 according to the wheel direction, then clamp it to
the range from 0.1 to 10. -/
def wheelEvent (w : WindowsState) (angleDeltaY : Int) : WindowsState :=
  let z := if 0 < angleDeltaY then w.zoom_factor * ((11 : Rat)/10)
           else w.zoom_factor / ((11 : Rat)/10)
  { w with zoom_factor := max ((1 : Rat)/10) (min z 10) }

/-- `Windows.mousePressEvent` (source lines 1001-1007). -/
def mousePressEvent (w : WindowsState) (leftButton : Bool) (px py : Int) :
    WindowsState :=
  if leftButton then
    { w with panning := true, last_mouse_x := px, last_mouse_y := py }
  else w

/-- `Windows.mouseMoveEvent` (source lines 1009-1019): while panning,
subtract the pointer delta from the offsets and re-clamp them against
the recorded scaled dimensions. -/
def mouseMoveEvent (w : WindowsState) (px py vw vh : Int) : WindowsState :=
  if w.panning = true then
    { w with last_mouse_x := px, last_mouse_y := py,
             x_offset := max 0 (min (w.x_offset - (px - w.last_mouse_x))
                                    (w.scaled_width - vw)),
             y_offset := max 0 (min (w.y_offset - (py - w.last_mouse_y))
                                    (w.scaled_height - vh)) }
  else w

/-- `Windows.mouseReleaseEvent` (source lines 1021-1026). -/
def mouseReleaseEvent (w : WindowsState) (leftButton : Bool) : WindowsState :=
  if leftButton then { w with panning := false } else w

/-- The settings dictionary produced by the `CameraSettings` dialog
(source lines 378-386). -/
structure SettingsDict where
  protocol : String
  user_name : String
  password : String
  ip_address : String
  port_number : String
  stream_path : String
  video_resolution : String
  deriving DecidableEq

/-- Drop leading and trailing ASCII spaces, as Python `int(str)` does
before parsing. -/
def stripSpaces (l : List Char) : List Char :=
  ((l.dropWhile (fun c => c = (' ' : Char))).reverse.dropWhile
    (fun c => c = (' ' : Char))).reverse

/-- Decimal value of a digit list. -/
def digitsVal (l : List Char) : Nat :=
  l.foldl (fun a c => a * 10 + (c.toNat - ('0' : Char).toNat)) 0

/-- Python `int(s)` on a string, modelling plain decimal literals with
an optional sign and surrounding spaces: `none` models the `ValueError`
raised on any other input. -/
def py_int? (s : String) : Option Int :=
  match stripSpaces s.data with
  | [] => none
  | c :: rest =>
      if c = ('-' : Char) then
        if rest ≠ [] ∧ rest.all Char.isDigit then
          some (-(Int.ofNat (digitsVal rest)))
        else none
      else if c = ('+' : Char) then
        if rest ≠ [] ∧ rest.all Char.isDigit then
          some (Int.ofNat (digitsVal rest))
        else none
      else if (c :: rest).all Char.isDigit then
        some (Int.ofNat (digitsVal (c :: rest)))
      else none

/-- Resolution preset decoding in `Windows.update_camera_settings`
(source lines 923-930). -/
def resolution_of_label (label : String) : Frame :=
  if label = ("1080p") then (1920, 1080)
  else if label = ("720p") then (1280, 720)
  else if label = ("480p") then (640, 480)
  else (1920, 1080)

/-- Python `str` of a resolution tuple, as used by
`f-string{self.video_resolution}` formatting. -/
def repr_resolution (r : Frame) : String :=
  ("(") ++ toString r.1 ++ (", ") ++ toString r.2 ++ (")")

/-- `Windows.update_camera_settings(camera_settings)` (source lines
914-949). `none` models an empty dictionary. The second component of
the result records a propagated `ValueError` from `int()`; the first
component is the state of the object at that point, since the source
mutates `self` field by field before the conversion runs. -/
def update_camera_settings (w : WindowsState) (d : Option SettingsDict) :
    WindowsState × Option String :=
  match d with
  | none => (w, none)
  | some cs =>
      let w1 := { w with protocol := cs.protocol, user := cs.user_name,
                         password := cs.password, ip := cs.ip_address }
      match py_int? cs.port_number with
      | none => (w1, some ("ValueError"))
      | some p =>
          let w2 := { w1 with port := p, stream_path := cs.stream_path,
                              video_resolution :=
                                resolution_of_label cs.video_resolution }
          if w2.ip ≠ ("") then
            let newUrl := w2.protocol ++ ("://") ++ w2.user ++ (":") ++
              w2.password ++ ("@") ++ w2.ip ++ (":") ++ toString w2.port ++
              ("/") ++ w2.stream_path
            let hidden := replace_letters_with_asterisks w2.password
            let shown := (" ") ++ w2.protocol ++ ("://") ++ w2.user ++
              (":") ++ hidden ++ ("@") ++ w2.ip ++ (":") ++
              toString w2.port ++ ("/") ++ w2.stream_path
            let w3 := update_status_bar { w2 with url := newUrl } ("")
              shown (repr_resolution w2.video_resolution)
            ({ w3 with start_enabled := true }, none)
          else
            ({ w2 with start_enabled := false }, none)

/-- A concrete idle `StreamThread` state (fresh or fully stopped). -/
def tIdle : ThreadState := t_init ("rtsp://cam") (1920, 1080)

/-- A concrete `Windows` state holding an idle thread, used to
instantiate universally quantified results. -/
def w0 : WindowsState :=
  { thread := tIdle, is_running := false, zoom_factor := 1, panning := true,
    last_mouse_x := 0, last_mouse_y := 0, x_offset := 40, y_offset := 40,
    scaled_width := 500, scaled_height := 500, current_frame := none,
    protocol := ("rtsp"), user := ("admin"), password := ("abc123"),
    ip := ("10.0.0.5"), port := 554, stream_path := ("live"),
    video_resolution := (1920, 1080), url := ("rtsp://cam"),
    start_enabled := true, status_message := (""), status_url := (""),
    status_resolution := (""), pause_button_text := ("Pause") }

lemma pan_clamp_nonneg (x c : Int) : 0 ≤ max 0 (min x c) := le_max_left 0 _

lemma pan_clamp_le (x c : Int) : max 0 (min x c) ≤ max 0 c :=
  max_le_max le_rfl (min_le_right x c)

lemma pan_clamp_zero_of_nonpos (x c : Int) (h : c ≤ 0) :
    max 0 (min x c) = 0 :=
  max_eq_left (le_trans (min_le_right x c) h)

lemma pan_clamp_le_self (x c : Int) (h : 0 ≤ c) : max 0 (min x c) ≤ c :=
  max_le h (min_le_right x c)

lemma truncQ_nonneg (q : Rat) (h : 0 ≤ q) : 0 ≤ truncQ q := by
  simp only [truncQ, if_pos h]
  exact Int.floor_nonneg.mpr h

lemma run_iter_resize (s : ThreadState) (r : Option Frame) :
    (run_iter s r).1.resize_frame = s.resize_frame := by
  rcases s with ⟨url, cap, sir, sip, vres, fffr, rf, tr, rc⟩
  rcases cap with _ | ⟨op, nat⟩
  · cases tr <;> cases sir <;> simp [run_iter]
  · cases tr <;> cases sir <;> cases op <;> cases sip <;>
      rcases r with _ | f <;> cases fffr <;> simp [run_iter]

/-- C1, counterexample. The claim says that after a failed frame read
the source handle is released and the session ends in a state from which
Start can be re-invoked. In the code the commented-out
`self.stop_streaming()` (line 211) means the capture is never released,
`__stream_is_running` stays `True`, and a subsequent
`start_streaming` call (guarded by `if not self.__stream_is_running`)
does not restart the thread — neither directly nor through
`Windows.start_streaming`. -/
theorem C1_counterexample :
    (run_iter t0 none).2 =
      [Ev.error ("Error reading frame. Stopping the video stream.")] ∧
    (run_iter t0 none).1.cap ≠ none ∧
    (run_iter t0 none).1.releaseCount = 0 ∧
    (run_iter t0 none).1.stream_is_running = true ∧
    (start_streaming (run_iter t0 none).1 ("rtsp://cam")
        (1920, 1080)).1.threadRunning = false ∧
    (windows_start_streaming
        { w0 with
          thread := (run_iter t0 none).1 }).1.thread.threadRunning = false := by
  decide

/-- C1, amended: when a frame read fails during streaming, exactly one
"Error reading frame. Stopping the video stream." error event is
emitted and the producer loop terminates, but the source handle is NOT
released, the running flag stays set, and a re-invoked Start only
clears the first-frame flag without restarting the thread. -/
theorem C1_read_failure (s : ThreadState) (c : Cap) (url : String)
    (res : Frame) (h1 : s.threadRunning = true)
    (h2 : s.stream_is_running = true) (h3 : s.stream_is_paused = false)
    (h4 : s.cap = some c) (h5 : c.opened = true) :
    run_iter s none =
      ({ s with threadRunning := false },
        [Ev.error ("Error reading frame. Stopping the video stream.")]) ∧
    (run_iter s none).1.cap = some c ∧
    (run_iter s none).1.releaseCount = s.releaseCount ∧
    (run_iter s none).1.stream_is_running = true ∧
    start_streaming (run_iter s none).1 url res =
      ({ (run_iter s none).1 with first_frame_was_received := false }, []) := by
  have key : run_iter s none =
      ({ s with threadRunning := false },
        [Ev.error ("Error reading frame. Stopping the video stream.")]) := by
    simp [run_iter, h1, h2, h3, h4, h5]
  refine ⟨key, ?_, ?_, ?_, ?_⟩
  · rw [key]; simp [h4]
  · rw [key]
  · rw [key]; simp [h2]
  · rw [key]; simp [start_streaming, h2]

/-- C1, witness: the amended statement at the concrete mid-session
state `t0`. -/
theorem C1_read_failure_witness :
    run_iter t0 none =
      ({ t0 with threadRunning := false },
        [Ev.error ("Error reading frame. Stopping the video stream.")]) ∧
    (run_iter t0 none).1.cap = some { opened := true, native := (1920, 1080) } ∧
    (run_iter t0 none).1.releaseCount = t0.releaseCount ∧
    (run_iter t0 none).1.stream_is_running = true ∧
    start_streaming (run_iter t0 none).1 ("rtsp://cam") (1920, 1080) =
      ({ (run_iter t0 none).1 with first_frame_was_received := false }, []) :=
  C1_read_failure t0 { opened := true, native := (1920, 1080) }
    ("rtsp://cam") (1920, 1080) rfl rfl rfl rfl rfl

/-- C2, counterexample. The claim says a Start call issued while the
session is already running does not re-arm the first-frame
notification. In the code the reset of `__first_frame_was_received`
sits outside the `if not self.__stream_is_running` guard, so a Start
during a running session (here `t0`, whose first frame was already
notified) clears the flag, and the next captured frame emits
`first_frame_received` and the one-time "Streaming started" status a
second time within the same Start/Connecting cycle. -/
theorem C2_counterexample :
    (start_streaming t0 ("rtsp://cam") (1920, 1080)).2 = [] ∧
    t0.first_frame_was_received = true ∧
    (start_streaming t0 ("rtsp://cam")
        (1920, 1080)).1.first_frame_was_received = false ∧
    Ev.firstFrame ∈
      (run_iter (start_streaming t0 ("rtsp://cam") (1920, 1080)).1
        (some (1920, 1080))).2 ∧
    Ev.status ("Streaming started") ∈
      (run_iter (start_streaming t0 ("rtsp://cam") (1920, 1080)).1
        (some (1920, 1080))).2 := by
  decide

/-- C2, amended: a Start call while the session is already running does
not restart the producer loop and emits no status event, but it always
clears the first-frame flag (re-arming the notification); between two
Start calls the capture loop emits the first-frame notification at most
once. -/
theorem C2_first_frame_once (s : ThreadState) (url : String) (res : Frame)
    (reads : List (Option Frame)) (h : s.stream_is_running = true) :
    start_streaming s url res =
      ({ s with first_frame_was_received := false }, []) ∧
    countFirstFrame (run_loop s reads).2 ≤ 1 := by
  constructor
  · simp [start_streaming, h]
  · have h1 := run_loop_countFF reads s
    have h2 : (if s.first_frame_was_received = true then 0 else 1) ≤ 1 := by
      split <;> omega
    omega

/-- C2, witness: the amended statement at the concrete running state
`t0` and a two-read schedule. -/
theorem C2_first_frame_once_witness :
    start_streaming t0 ("rtsp://cam") (1920, 1080) =
      ({ t0 with first_frame_was_received := false }, []) ∧
    countFirstFrame (run_loop t0 [some (1920, 1080), none]).2 ≤ 1 :=
  C2_first_frame_once t0 ("rtsp://cam") (1920, 1080)
    [some (1920, 1080), none] rfl

/-- C3: Stop on an already idle session is a no-op. At the
`StreamThread` level, `stop_streaming` on an idle state (loop not
running, capture already released) leaves the state unchanged, performs
no further release, and emits exactly one "Stopping streaming" status
event; at the `Windows` level, `stop_streaming` while the thread is not
running does nothing at all and emits no event. -/
theorem C3_stop_idle (t : ThreadState) (w : WindowsState)
    (h1 : t.stream_is_running = false) (h2 : t.threadRunning = false)
    (h3 : t.cap = none) (hw : w.thread.threadRunning = false) :
    stop_streaming t = (t, [Ev.status ("Stopping streaming")]) ∧
    (stop_streaming t).1.releaseCount = t.releaseCount ∧
    windows_stop_streaming w = (w, []) := by
  refine ⟨?_, ?_, ?_⟩
  · cases t
    simp_all [stop_streaming]
  · simp [stop_streaming, h3]
  · simp [windows_stop_streaming, hw]

/-- C3, witness: the statement at the concrete idle thread `tIdle` and
window state `w0`. -/
theorem C3_stop_idle_witness :
    stop_streaming tIdle = (tIdle, [Ev.status ("Stopping streaming")]) ∧
    (stop_streaming tIdle).1.releaseCount = tIdle.releaseCount ∧
    windows_stop_streaming w0 = (w0, []) :=
  C3_stop_idle tIdle w0 rfl rfl rfl rfl

/-- C6, counterexample. The claim says resize-needed is decided afresh
at each connect, so a session whose requested resolution equals the
native one has it false even after a previous session that resized. In
the code `__resize_frame` is only ever set to `True` and never cleared:
after a first session that resized (requested 1280x720, native
1920x1080) and a clean stop, a second session with requested equal to
native (1920x1080) still has `__resize_frame = True`. -/
theorem C6_counterexample :
    (thread_exec (t_init ("rtsp://cam") (1280, 720))
      [Act.callStart ("rtsp://cam") (1280, 720),
       Act.connectDone (InitOutcome.completed
         (some { opened := true, native := (1920, 1080) })),
       Act.iter (some (1920, 1080)),
       Act.callStop,
       Act.callStart ("rtsp://cam") (1920, 1080),
       Act.connectDone (InitOutcome.completed
         (some { opened := true, native := (1920, 1080) }))]).1.resize_frame
      = true ∧
    (thread_exec (t_init ("rtsp://cam") (1280, 720))
      [Act.callStart ("rtsp://cam") (1280, 720),
       Act.connectDone (InitOutcome.completed
         (some { opened := true, native := (1920, 1080) })),
       Act.iter (some (1920, 1080)),
       Act.callStop,
       Act.callStart ("rtsp://cam") (1920, 1080),
       Act.connectDone (InitOutcome.completed
         (some { opened := true, native := (1920, 1080) }))]).1.video_resolution
      = (1920, 1080) := by
  decide

/-- C6, amended: at connect time `__resize_frame` becomes true when the
requested resolution differs from the native one and otherwise keeps
its previous value; the capture loop never modifies it (the decision is
fixed while the session runs); and on a thread whose flag is still
clear the connect-time decision is exactly "resize iff requested
differs from native". -/
theorem C6_resize_sticky (s : ThreadState) (native : Frame)
    (r : Option Frame) (h : s.resize_frame = false) :
    ((run_connect s (InitOutcome.completed
        (some { opened := true, native := native }))).1.resize_frame
      = (if s.video_resolution ≠ native then true else s.resize_frame)) ∧
    ((run_iter s r).1.resize_frame = s.resize_frame) ∧
    ((run_connect s (InitOutcome.completed
        (some { opened := true, native := native }))).1.resize_frame
      = (if s.video_resolution ≠ native then true else false)) := by
  refine ⟨?_, run_iter_resize s r, ?_⟩
  · by_cases hv : s.video_resolution = native <;> simp [run_connect, hv]
  · by_cases hv : s.video_resolution = native <;> simp [run_connect, hv, h]

/-- C6, witness: the amended statement on a fresh thread requesting
1280x720 from a 1920x1080 source. -/
theorem C6_resize_sticky_witness :
    ((run_connect (t_init ("rtsp://cam") (1280, 720))
        (InitOutcome.completed
          (some { opened := true, native := (1920, 1080) }))).1.resize_frame
      = (if (t_init ("rtsp://cam") (1280, 720)).video_resolution ≠ (1920, 1080)
          then true else (t_init ("rtsp://cam") (1280, 720)).resize_frame)) ∧
    ((run_iter (t_init ("rtsp://cam") (1280, 720))
        (some (1920, 1080))).1.resize_frame
      = (t_init ("rtsp://cam") (1280, 720)).resize_frame) ∧
    ((run_connect (t_init ("rtsp://cam") (1280, 720))
        (InitOutcome.completed
          (some { opened := true, native := (1920, 1080) }))).1.resize_frame
      = (if (t_init ("rtsp://cam") (1280, 720)).video_resolution ≠ (1920, 1080)
          then true else false)) :=
  C6_resize_sticky (t_init ("rtsp://cam") (1280, 720)) (1920, 1080)
    (some (1920, 1080)) rfl

/-- C7: a Pause call while the session is not active (the stream thread
is not running) is a no-op at the player level: `Windows.pause_streaming`
is guarded by `isRunning()`, so it changes no state and emits no
"Streaming paused" or "Streaming playing" status event. -/
theorem C7_pause_inactive (w : WindowsState)
    (h : w.thread.threadRunning = false) :
    windows_pause_streaming w = (w, []) := by
  simp [windows_pause_streaming, h]

/-- C7, witness: the statement at the concrete idle window state `w0`. -/
theorem C7_pause_inactive_witness : windows_pause_streaming w0 = (w0, []) :=
  C7_pause_inactive w0 rfl

/-- C4: after a frame display and, while panning, after a mouse-move
pan adjustment, each pan offset lies between 0 and
`max 0 (scaled size - viewport size)`; in particular with
`scaled_width = 500` and a viewport width of 800 the x offset is forced
to 0 whatever pan was requested. -/
theorem C4_pan_clamped (w : WindowsState) (f : Frame) (vw vh px py : Int)
    (hp : w.panning = true) :
    (0 ≤ (display_frame w f vw vh).x_offset ∧
      (display_frame w f vw vh).x_offset ≤
        max 0 ((display_frame w f vw vh).scaled_width - vw) ∧
      0 ≤ (display_frame w f vw vh).y_offset ∧
      (display_frame w f vw vh).y_offset ≤
        max 0 ((display_frame w f vw vh).scaled_height - vh)) ∧
    (0 ≤ (mouseMoveEvent w px py vw vh).x_offset ∧
      (mouseMoveEvent w px py vw vh).x_offset ≤
        max 0 (w.scaled_width - vw) ∧
      0 ≤ (mouseMoveEvent w px py vw vh).y_offset ∧
      (mouseMoveEvent w px py vw vh).y_offset ≤
        max 0 (w.scaled_height - vh)) ∧
    (w.scaled_width = 500 → vw = 800 →
      (mouseMoveEvent w px py vw vh).x_offset = 0) := by
  refine ⟨⟨?_, ?_, ?_, ?_⟩, ⟨?_, ?_, ?_, ?_⟩, ?_⟩
  · simp only [display_frame]
    exact pan_clamp_nonneg _ _
  · simp only [display_frame]
    exact pan_clamp_le _ _
  · simp only [display_frame]
    exact pan_clamp_nonneg _ _
  · simp only [display_frame]
    exact pan_clamp_le _ _
  · simp only [mouseMoveEvent, hp, if_pos]
    exact pan_clamp_nonneg _ _
  · simp only [mouseMoveEvent, hp, if_pos]
    exact pan_clamp_le _ _
  · simp only [mouseMoveEvent, hp, if_pos]
    exact pan_clamp_nonneg _ _
  · simp only [mouseMoveEvent, hp, if_pos]
    exact pan_clamp_le _ _
  · intro hsw hvw
    simp only [mouseMoveEvent, hp, if_pos, hsw, hvw]
    exact pan_clamp_zero_of_nonpos _ _ (by norm_num)

/-- C4, witness: the statement at the concrete window state `w0`
(panning, scaled width 500) with viewport width 800. -/
theorem C4_pan_clamped_witness :
    (0 ≤ (display_frame w0 (640, 480) 800 600).x_offset ∧
      (display_frame w0 (640, 480) 800 600).x_offset ≤
        max 0 ((display_frame w0 (640, 480) 800 600).scaled_width - 800) ∧
      0 ≤ (display_frame w0 (640, 480) 800 600).y_offset ∧
      (display_frame w0 (640, 480) 800 600).y_offset ≤
        max 0 ((display_frame w0 (640, 480) 800 600).scaled_height - 600)) ∧
    (0 ≤ (mouseMoveEvent w0 7 9 800 600).x_offset ∧
      (mouseMoveEvent w0 7 9 800 600).x_offset ≤
        max 0 (w0.scaled_width - 800) ∧
      0 ≤ (mouseMoveEvent w0 7 9 800 600).y_offset ∧
      (mouseMoveEvent w0 7 9 800 600).y_offset ≤
        max 0 (w0.scaled_height - 600)) ∧
    (w0.scaled_width = 500 → (800 : Int) = 800 →
      (mouseMoveEvent w0 7 9 800 600).x_offset = 0) :=
  C4_pan_clamped w0 (640, 480) 800 600 7 9 rfl

/-- The clipped copy rectangle produced for a displayed frame: the
rectangle handed to `QPixmap.copy`, intersected with the scaled frame's
bounds. -/
def viewport_output (w : WindowsState) (f : Frame) (vw vh : Int) :
    Int × Int × Int × Int :=
  clip_rect (visible_rect (display_frame w f vw vh) vw vh)
    (display_frame w f vw vh).scaled_width
    (display_frame w f vw vh).scaled_height

lemma viewport_axis (x sw vsz : Int) (hsw : 0 ≤ sw) (hv : 0 ≤ vsz) :
    0 ≤ max 0 (min x (sw - vsz)) ∧
    max 0 (min x (sw - vsz)) ≤ min sw (max 0 (min x (sw - vsz)) + vsz) ∧
    min sw (max 0 (min x (sw - vsz)) + vsz) ≤ sw ∧
    (vsz ≤ sw → max 0 (min x (sw - vsz)) + vsz ≤ sw) ∧
    (sw < vsz → max 0 (min x (sw - vsz)) = 0) := by
  have h1 := pan_clamp_nonneg x (sw - vsz)
  have h2 := pan_clamp_le x (sw - vsz)
  refine ⟨h1, ?_, min_le_left _ _, ?_, ?_⟩
  · refine le_min ?_ (by omega)
    calc max 0 (min x (sw - vsz)) ≤ max 0 (sw - vsz) := h2
      _ ≤ sw := max_le hsw (by omega)
  · intro hfit
    have h3 : max 0 (sw - vsz) = sw - vsz := max_eq_right (by omega)
    omega
  · intro hbig
    exact pan_clamp_zero_of_nonpos _ _ (by omega)

/-- C5: for any frame, any zoom factor in the clamped range, any
requested pan and any viewport with non-negative dimensions, the
rectangle actually copied out of the scaled frame is fully contained in
the scaled frame's bounds; when the viewport fits inside the scaled
frame the requested rectangle itself already lies within the bounds,
and when the viewport is larger the pan offset is forced to 0 (the copy
is clipped to the scaled frame). -/
theorem C5_viewport_contained (w : WindowsState) (f : Frame) (vw vh : Int)
    (hz1 : (1 : Rat)/10 ≤ w.zoom_factor) (_hz2 : w.zoom_factor ≤ 10)
    (hvw : 0 ≤ vw) (hvh : 0 ≤ vh) :
    0 ≤ (viewport_output w f vw vh).1 ∧
    (viewport_output w f vw vh).1 ≤ (viewport_output w f vw vh).2.2.1 ∧
    (viewport_output w f vw vh).2.2.1 ≤
      (display_frame w f vw vh).scaled_width ∧
    0 ≤ (viewport_output w f vw vh).2.1 ∧
    (viewport_output w f vw vh).2.1 ≤ (viewport_output w f vw vh).2.2.2 ∧
    (viewport_output w f vw vh).2.2.2 ≤
      (display_frame w f vw vh).scaled_height ∧
    (vw ≤ (display_frame w f vw vh).scaled_width →
      (display_frame w f vw vh).x_offset + vw ≤
        (display_frame w f vw vh).scaled_width) ∧
    ((display_frame w f vw vh).scaled_width < vw →
      (display_frame w f vw vh).x_offset = 0) ∧
    (vh ≤ (display_frame w f vw vh).scaled_height →
      (display_frame w f vw vh).y_offset + vh ≤
        (display_frame w f vw vh).scaled_height) ∧
    ((display_frame w f vw vh).scaled_height < vh →
      (display_frame w f vw vh).y_offset = 0) := by
  have hz0 : (0 : Rat) ≤ w.zoom_factor := le_trans (by norm_num) hz1
  have hsw : 0 ≤ truncQ (w.zoom_factor * (f.1 : Rat)) :=
    truncQ_nonneg _ (mul_nonneg hz0 (Nat.cast_nonneg f.1))
  have hsh : 0 ≤ truncQ (w.zoom_factor * (f.2 : Rat)) :=
    truncQ_nonneg _ (mul_nonneg hz0 (Nat.cast_nonneg f.2))
  have e1 : ∀ x c : Int, max 0 (max 0 (min x c)) = max 0 (min x c) :=
    fun x c => max_eq_right (pan_clamp_nonneg x c)
  obtain ⟨a1, a2, a3, a4, a5⟩ :=
    viewport_axis w.x_offset (truncQ (w.zoom_factor * (f.1 : Rat))) vw hsw hvw
  obtain ⟨b1, b2, b3, b4, b5⟩ :=
    viewport_axis w.y_offset (truncQ (w.zoom_factor * (f.2 : Rat))) vh hsh hvh
  simp only [viewport_output, clip_rect, visible_rect, display_frame, e1]
  exact ⟨a1, a2, a3, b1, b2, b3, a4, a5, b4, b5⟩

/-- C5, witness: the statement at the concrete window state `w0` (zoom
factor 1), a 640x480 frame, and a 100x100 viewport. -/
theorem C5_viewport_contained_witness :
    0 ≤ (viewport_output w0 (640, 480) 100 100).1 ∧
    (viewport_output w0 (640, 480) 100 100).1 ≤
      (viewport_output w0 (640, 480) 100 100).2.2.1 ∧
    (viewport_output w0 (640, 480) 100 100).2.2.1 ≤
      (display_frame w0 (640, 480) 100 100).scaled_width ∧
    0 ≤ (viewport_output w0 (640, 480) 100 100).2.1 ∧
    (viewport_output w0 (640, 480) 100 100).2.1 ≤
      (viewport_output w0 (640, 480) 100 100).2.2.2 ∧
    (viewport_output w0 (640, 480) 100 100).2.2.2 ≤
      (display_frame w0 (640, 480) 100 100).scaled_height ∧
    ((100 : Int) ≤ (display_frame w0 (640, 480) 100 100).scaled_width →
      (display_frame w0 (640, 480) 100 100).x_offset + 100 ≤
        (display_frame w0 (640, 480) 100 100).scaled_width) ∧
    ((display_frame w0 (640, 480) 100 100).scaled_width < 100 →
      (display_frame w0 (640, 480) 100 100).x_offset = 0) ∧
    ((100 : Int) ≤ (display_frame w0 (640, 480) 100 100).scaled_height →
      (display_frame w0 (640, 480) 100 100).y_offset + 100 ≤
        (display_frame w0 (640, 480) 100 100).scaled_height) ∧
    ((display_frame w0 (640, 480) 100 100).scaled_height < 100 →
      (display_frame w0 (640, 480) 100 100).y_offset = 0) :=
  C5_viewport_contained w0 (640, 480) 100 100 (by norm_num [w0])
    (by norm_num [w0]) (by norm_num) (by norm_num)

lemma map_const_star (l : List Char) :
    l.map (fun _ => ('*' : Char)) = List.replicate l.length ('*' : Char) := by
  induction l with
  | nil => rfl
  | cons a l ih => simp [ih, List.replicate_succ]

/-- C8: the masked connection URL renders the secret as exactly
`length(secret)` asterisks, and the displayed URL depends on the secret
only through its length: two secrets of equal length yield identical
displayed URLs, so the raw secret value never influences (and in
particular never appears in) the displayed status text beyond its
length. -/
theorem C8_secret_masked (s s1 s2 protocol user ip sp : String)
    (port : Int) (h : s1.length = s2.length) :
    (replace_letters_with_asterisks s).data =
      List.replicate s.length ('*' : Char) ∧
    displayed_url protocol user s1 ip port sp =
      displayed_url protocol user s2 ip port sp := by
  have mask : ∀ t : String, (replace_letters_with_asterisks t).data =
      List.replicate t.length ('*' : Char) := by
    intro t
    show t.data.map (fun _ => ('*' : Char)) =
      List.replicate t.data.length ('*' : Char)
    exact map_const_star t.data
  constructor
  · exact mask s
  · have hm : replace_letters_with_asterisks s1 =
        replace_letters_with_asterisks s2 := by
      show String.mk (s1.data.map (fun _ => ('*' : Char))) =
        String.mk (s2.data.map (fun _ => ('*' : Char)))
      rw [map_const_star, map_const_star,
        show s1.data.length = s2.data.length from h]
    simp [displayed_url, hm]

/-- C8, witness: the secret "abc123" of length 6 masks to six asterisks
and is display-equivalent to any other six-character secret. -/
theorem C8_secret_masked_witness :
    (replace_letters_with_asterisks ("abc123")).data =
      List.replicate (String.length ("abc123")) ('*' : Char) ∧
    displayed_url ("rtsp") ("admin") ("abc123") ("10.0.0.5") 554 ("live") =
      displayed_url ("rtsp") ("admin") ("qwerty") ("10.0.0.5") 554 ("live") :=
  C8_secret_masked ("abc123") ("abc123") ("qwerty") ("rtsp") ("admin")
    ("10.0.0.5") ("live") 554 (by decide)

/-- C9: a wheel event only changes the zoom factor — multiplying it by
1.1 on scroll-up, dividing by 1.1 on scroll-down, then clamping to the
range from 0.1 to 10 — and leaves the pan offsets, panning state, stored
current frame, and recorded scaled dimensions untouched. -/
theorem C9_wheel_only_zoom (w : WindowsState) (d : Int) :
    (wheelEvent w d).x_offset = w.x_offset ∧
    (wheelEvent w d).y_offset = w.y_offset ∧
    (wheelEvent w d).panning = w.panning ∧
    (wheelEvent w d).current_frame = w.current_frame ∧
    (wheelEvent w d).scaled_width = w.scaled_width ∧
    (wheelEvent w d).scaled_height = w.scaled_height ∧
    (wheelEvent w d).zoom_factor =
      max ((1 : Rat)/10)
        (min (if 0 < d then w.zoom_factor * ((11 : Rat)/10)
              else w.zoom_factor / ((11 : Rat)/10)) 10) :=
  ⟨rfl, rfl, rfl, rfl, rfl, rfl, rfl⟩

/-- C10: when the settings dictionary is non-empty but its port text is
not a valid integer literal, `update_camera_settings` propagates the
conversion error after having already written protocol, user, password
and ip, while leaving port, stream path, video resolution and the
connection URL at their previous values — the update is not atomic. -/
theorem C10_settings_not_atomic (w : WindowsState) (cs : SettingsDict)
    (h : py_int? cs.port_number = none) :
    update_camera_settings w (some cs) =
      ({ w with protocol := cs.protocol, user := cs.user_name,
                password := cs.password, ip := cs.ip_address },
        some ("ValueError")) ∧
    (update_camera_settings w (some cs)).1.port = w.port ∧
    (update_camera_settings w (some cs)).1.stream_path = w.stream_path ∧
    (update_camera_settings w (some cs)).1.video_resolution =
      w.video_resolution ∧
    (update_camera_settings w (some cs)).1.url = w.url := by
  have key : update_camera_settings w (some cs) =
      ({ w with protocol := cs.protocol, user := cs.user_name,
                password := cs.password, ip := cs.ip_address },
        some ("ValueError")) := by
    simp [update_camera_settings, h]
  refine ⟨key, ?_, ?_, ?_, ?_⟩ <;> rw [key]

/-- A concrete settings dictionary whose port text is not numeric. -/
def cs0 : SettingsDict :=
  { protocol := ("rtsp"), user_name := ("admin"), password := ("secret1"),
    ip_address := ("10.0.0.5"), port_number := ("abc"),
    stream_path := ("live"), video_resolution := ("720p") }

/-- C10, witness: the statement at the concrete window state `w0` and
dictionary `cs0` (port text "abc"). -/
theorem C10_settings_not_atomic_witness :
    update_camera_settings w0 (some cs0) =
      ({ w0 with protocol := cs0.protocol, user := cs0.user_name,
                 password := cs0.password, ip := cs0.ip_address },
        some ("ValueError")) ∧
    (update_camera_settings w0 (some cs0)).1.port = w0.port ∧
    (update_camera_settings w0 (some cs0)).1.stream_path = w0.stream_path ∧
    (update_camera_settings w0 (some cs0)).1.video_resolution =
      w0.video_resolution ∧
    (update_camera_settings w0 (some cs0)).1.url = w0.url :=
  C10_settings_not_atomic w0 cs0 (by decide)
